import Mathlib

/-!
# MacroViz v0.1 — a verification of `src/app.py`

The application is a single-file Streamlit dashboard: it parses a comma-separated
list of ISO3 country codes, fetches one World Bank indicator per country,
normalizes each response into a table of observations, concatenates the tables,
and renders a chart, a table view and a CSV export.

This development shallowly embeds the script's data flow:

* Python string operations used by the script (`str.upper`, `str.strip`,
  `str.split(",")`, `int(...)`) are modelled as structurally recursive functions
  over `String.data` so that everything evaluates inside the kernel.
* The HTTP layer is modelled by a `WBResponse` value describing what the network
  and the JSON body look like for one `(country, indicator)` request; a fetch
  that raises a Python exception is an `Except.error` carrying the exception
  name.
* `pandas.DataFrame`s are modelled as `List Obs`, one `Obs` per row, in table
  order; `dropna` is `List.filter`, `sort_values("year")` is a deterministic
  stable comparison sort (`List.insertionSort`), and `reset_index(drop=True)`
  is the identity on the row list.
* The Streamlit run (validation, per-country fetch loop with `try/except`,
  concatenation, empty check, rendering) is the function `runApp`; its
  `RunResult` records the blocking error message, the fetches attempted, the
  non-blocking warnings, the combined table and whether chart/table/CSV were
  produced.
-/

deriving instance DecidableEq for Except

namespace MacroViz

/-! ## Character and string primitives -/

theorem charToNat_ofNat {n : Nat} (h : n < 0xd800) : (Char.ofNat n).toNat = n := by
  rw [Char.ofNat, dif_pos (Or.inl h)]
  rfl

theorem toUpperChar_eq (c : Char) :
    c.toUpper = if c.toNat ≥ 97 ∧ c.toNat ≤ 122 then Char.ofNat (c.toNat - 32) else c := rfl

theorem toUpperChar_idem (c : Char) : c.toUpper.toUpper = c.toUpper := by
  rw [toUpperChar_eq c]
  split
  · rename_i h
    rw [toUpperChar_eq, charToNat_ofNat (by omega)]
    rw [if_neg (by omega)]
  · rename_i h
    rw [toUpperChar_eq, if_neg h]

/-- Python `str.upper()` as used on ASCII country codes (embeds `country_iso3.upper()`
and `c.strip().upper()` from `src/app.py`). -/
def upper (s : String) : String := ⟨s.data.map Char.toUpper⟩

theorem upper_idem (s : String) : upper (upper s) = upper s := by
  have h : Char.toUpper ∘ Char.toUpper = Char.toUpper := funext toUpperChar_idem
  simp only [upper, List.map_map, h]

/-- Whitespace as recognized by Python `str.strip()` (restricted to the ASCII
whitespace that can occur in the app's input field). -/
def pyIsSpace (c : Char) : Bool := c = ' ' || c = '\t' || c = '\n' || c = '\r'

/-- Python `str.strip()` (embeds `c.strip()` from line 61 of `src/app.py`). -/
def pyStrip (s : String) : String :=
  ⟨((s.data.dropWhile pyIsSpace).reverse.dropWhile pyIsSpace).reverse⟩

def splitCommaAux : List Char → List Char → List (List Char)
  | [], acc => [acc.reverse]
  | c :: rest, acc =>
    if c = ',' then acc.reverse :: splitCommaAux rest []
    else splitCommaAux rest (c :: acc)

/-- Python `str.split(",")` (embeds `countries_text.split(",")` from line 61 of
`src/app.py`): splits at every comma, keeping empty tokens, and returns `[""]`
on the empty string. -/
def pySplitComma (s : String) : List String :=
  (splitCommaAux s.data []).map String.mk

/-- Decimal value of a digit string, most significant digit first. -/
def digitsVal (l : List Char) : Nat :=
  l.foldl (fun n c => n * 10 + (c.toNat - 48)) 0

/-- Python `int(...)` applied to a string (embeds `int(year)` from line 42 of
`src/app.py`): accepts an optional minus sign followed by decimal digits and
raises `ValueError` (here: `none`) otherwise.  CPython additionally tolerates
surrounding whitespace, a leading plus and digit-group underscores; none of the
claims depend on those inputs. -/
def pyInt? (s : String) : Option Int :=
  match s.data with
  | [] => none
  | '-' :: rest =>
    if rest ≠ [] ∧ rest.all (·.isDigit) then some (-(digitsVal rest : Int)) else none
  | l => if l.all (·.isDigit) then some (digitsVal l : Int) else none

/-! ## The World Bank response model

`fetch_world_bank` performs `requests.get(url).raise_for_status()`, decodes the
body with `r.json()` and then inspects `data`:

```python
if not isinstance(data, list) or len(data) < 2 or data[1] is None:
    return pd.DataFrame(columns=["iso3", "country", "indicator", "year", "value"])
```

`WBResponse` enumerates the observably distinct situations for one request. -/

/-- One element of `data[1]`, i.e. one per-year entry of the World Bank payload.

* `date`: the value of `item.get("date")` — `none` models a missing key or JSON
  `null`, `some s` a string (World Bank dates are strings such as `"2005"`).
* `country`: `none` models `item["country"]` missing, `null`, or an object
  without a `"value"` key (all of which make `(item.get("country") or
  {}).get("value", default)` return the default); `some v` models an object
  whose `"value"` key holds `v` (`v = none` being JSON `null`).
* `indicator`: same convention for `(item.get("indicator") or {}).get("id",
  indicator)`.
* `value`: `item.get("value")`, a number or `null`, carried through unmodified
  (numbers are modelled as integers; the app never computes with them). -/
structure WBEntry where
  date : Option String
  country : Option (Option String)
  indicator : Option (Option String)
  value : Option Int
deriving DecidableEq

/-- What one `(country, indicator, date-range)` request to the service looks
like to the script. -/
inductive WBResponse where
  /-- `requests.get` raises (network error) or `raise_for_status` raises
  (non-2xx status). -/
  | httpFailure
  /-- 2xx status but `r.json()` raises because the body is not JSON. -/
  | nonJsonBody
  /-- the body is JSON but not a list of length at least 2 (e.g. the JSON
  number `42`, an object, or a one-element list): line 32 returns the empty
  frame. -/
  | jsonNotTwoList
  /-- a list whose second element is `null` (the World Bank "no data" shape
  `[meta, null]`): line 32 returns the empty frame. -/
  | jsonNullSecond
  /-- a list whose second element is neither `null` nor a sequence of objects,
  so the `for item in data[1]` loop raises. -/
  | jsonBadSecond
  /-- a list whose second element is a sequence of per-year entry objects. -/
  | entries (items : List WBEntry)
deriving DecidableEq

/-- One row of the working table (the `rows.append({...})` dict of lines 38-44).
`year` is `Option Int` because the row built at line 42 holds `None` when the
payload `date` is falsy; `dropna(subset=["year"])` later removes such rows. -/
structure Obs where
  iso3 : String
  country : Option String
  indicator : Option String
  year : Option Int
  value : Option Int
deriving DecidableEq

/-- Python truthiness of `item.get("date")`: `None` and `""` are falsy, every
other string is truthy. -/
def pyTruthyDate : Option String → Bool
  | none => false
  | some s => s != ""

/-- The `"year": int(year) if year else None` computation of line 42: a falsy
`date` yields `None`, a truthy one is fed to `int`, which raises `ValueError`
on an unparseable string. -/
def pyDate : Option String → Except String (Option Int)
  | none => .ok none
  | some s =>
    if s == "" then .ok none
    else
      match pyInt? s with
      | some n => .ok (some n)
      | none => .error "ValueError"

/-- The dict built for one payload entry (lines 38-44 of `src/app.py`). -/
def mkRow (country_iso3 indicator : String) (item : WBEntry) : Except String Obs :=
  match pyDate item.date with
  | .error e => .error e
  | .ok y =>
    .ok { iso3 := upper country_iso3
        , country := item.country.getD (some (upper country_iso3))
        , indicator := item.indicator.getD (some indicator)
        , year := y
        , value := item.value }

/-- The `for item in data[1]` loop of lines 36-44: builds one row per entry and
propagates the first exception. -/
def buildRows (country_iso3 indicator : String) : List WBEntry → Except String (List Obs)
  | [] => .ok []
  | item :: rest =>
    match mkRow country_iso3 indicator item with
    | .error e => .error e
    | .ok r =>
      match buildRows country_iso3 indicator rest with
      | .error e => .error e
      | .ok rs => .ok (r :: rs)

/-- Row comparison used by `sort_values("year")`: compare the `year` column
(all rows fed to the sort have a present `year`, the `getD` default is never
observed). -/
def byYear (a b : Obs) : Prop := a.year.getD 0 ≤ b.year.getD 0

instance : DecidableRel byYear := fun a b => inferInstanceAs (Decidable (_ ≤ _))

instance : IsTotal Obs byYear := ⟨fun a b => Int.le_total (a.year.getD 0) (b.year.getD 0)⟩

instance : IsTrans Obs byYear := ⟨fun _ _ _ => Int.le_trans⟩

/-- Line 46 of `src/app.py`:
`pd.DataFrame(rows).dropna(subset=["year"]).sort_values("year").reset_index(drop=True)`.
`dropna` keeps the rows whose `year` is present and `reset_index` is the
identity on the row list.  `sort_values` runs with the pandas default
`kind='quicksort'` (numpy introsort), which is deterministic for a given input
but documented as not stable: the order in which rows sharing a `year` come
out is some fixed implementation-defined permutation.  The model puts a
deterministic stable comparison sort in its place; every property derived from
it in this development — rows sorted ascending by `year`, row counts, row
membership, determinism — is insensitive to the order among equal-`year` rows
and therefore holds of the program under any deterministic comparison sort.
Properties that depend on the tie order itself (such as idempotence of the
transformation on tables with duplicated years) are not established by this
model. -/
def normalizeTable (df : List Obs) : List Obs :=
  List.insertionSort byYear (df.filter (fun r => r.year.isSome))

/-- `fetch_world_bank(country_iso3, indicator, start_year, end_year)` of lines
22-47, as a function of the response the service produces for the request URL.
`start_year`/`end_year` only enter the URL, so given the response they do not
influence the table.  An `Except.error` is a raised Python exception, caught at
the call site (line 84).  When `data[1]` is the empty list, the loop builds
`rows = []` and `pd.DataFrame([])` has no columns at all, so
`dropna(subset=["year"])` raises `KeyError` — that fetch fails rather than
returning an empty table. -/
def fetch_world_bank (country_iso3 indicator : String) (start_year end_year : Int)
    (resp : WBResponse) : Except String (List Obs) :=
  match resp with
  | .httpFailure => .error "HTTPError"
  | .nonJsonBody => .error "JSONDecodeError"
  | .jsonNotTwoList => .ok []
  | .jsonNullSecond => .ok []
  | .jsonBadSecond => .error "TypeError"
  | .entries items =>
    match buildRows country_iso3 indicator items with
    | .error e => .error e
    | .ok rows =>
      if rows.isEmpty then .error "KeyError"
      else .ok (normalizeTable rows)

/-! ## The Streamlit run -/

/-- Line 61 of `src/app.py`:
`countries = [c.strip().upper() for c in countries_text.split(",") if c.strip()]`. -/
def parseCountries (countries_text : String) : List String :=
  ((pySplitComma countries_text).filter (fun c => pyStrip c != "")).map (fun c => upper (pyStrip c))

/-- The warning emitted at line 85: `st.warning(f"{c}: failed to fetch ({e})")`. -/
def warnMsg (c e : String) : String := c ++ ": failed to fetch (" ++ e ++ ")"

/-- The `frames` list of the fetch loop (lines 80-85): the tables of the
fetches that did not raise, in country order. -/
def frames (countries : List String) (indicator_code : String) (start_year end_year : Int)
    (resp : String → WBResponse) : List (List Obs) :=
  countries.filterMap
    (fun c => (fetch_world_bank c indicator_code start_year end_year (resp c)).toOption)

/-- The warnings emitted by the fetch loop (line 85), in country order. -/
def loopWarnings (countries : List String) (indicator_code : String) (start_year end_year : Int)
    (resp : String → WBResponse) : List String :=
  countries.filterMap
    (fun c =>
      match fetch_world_bank c indicator_code start_year end_year (resp c) with
      | .error e => some (warnMsg c e)
      | .ok _ => none)

/-- Observable outcome of one user-triggered run of the script. -/
structure RunResult where
  /-- blocking `st.error` message from input validation (lines 71-77), if any -/
  errorMsg : Option String
  /-- countries for which `fetch_world_bank` was invoked, in loop order -/
  attempted : List String
  /-- non-blocking `st.warning` messages from the fetch loop (line 85) -/
  warnings : List String
  /-- the combined table `df` (line 87) -/
  df : List Obs
  /-- whether the `"No data returned"` warning of line 90 was shown -/
  emptyWarning : Bool
  /-- whether chart, table view and CSV export were produced (lines 93-110) -/
  rendered : Bool
deriving DecidableEq

/-- One user-triggered run (lines 61-110 of `src/app.py`, with the `Load data`
button pressed): validate the country list, fetch each country inside
`try/except`, concatenate the successful frames, halt if the combined table is
empty, otherwise render.  `resp c` is the response the service produces for
country `c`; `st.cache_data` makes repeated fetches of the same tuple return
the same result, which the functional oracle models. -/
def runApp (countries_text indicator_code : String) (start_year end_year : Int)
    (resp : String → WBResponse) : RunResult :=
  if (parseCountries countries_text).length = 0 then
    { errorMsg := some "Please enter at least one ISO3 country code (e.g., DEU)."
    , attempted := [], warnings := [], df := [], emptyWarning := false, rendered := false }
  else if (parseCountries countries_text).length > 15 then
    { errorMsg := some "Too many countries selected for v0.1. Please keep it ≤ 15."
    , attempted := [], warnings := [], df := [], emptyWarning := false, rendered := false }
  else if ((frames (parseCountries countries_text) indicator_code start_year end_year
      resp).flatten).isEmpty then
    { errorMsg := none
    , attempted := parseCountries countries_text
    , warnings := loopWarnings (parseCountries countries_text) indicator_code start_year end_year resp
    , df := (frames (parseCountries countries_text) indicator_code start_year end_year resp).flatten
    , emptyWarning := true, rendered := false }
  else
    { errorMsg := none
    , attempted := parseCountries countries_text
    , warnings := loopWarnings (parseCountries countries_text) indicator_code start_year end_year resp
    , df := (frames (parseCountries countries_text) indicator_code start_year end_year resp).flatten
    , emptyWarning := false, rendered := true }

/-! ## Helper lemmas -/

theorem pyDate_ok_isSome {d : Option String} {y : Option Int} (h : pyDate d = .ok y) :
    y.isSome = pyTruthyDate d := by
  cases d with
  | none =>
    simp only [pyDate] at h
    cases h
    rfl
  | some s =>
    by_cases hs : s == ""
    · simp only [pyDate, if_pos hs] at h
      cases h
      simp [pyTruthyDate, bne, hs]
    · simp only [pyDate, if_neg hs] at h
      cases hp : pyInt? s with
      | none => rw [hp] at h; exact Except.noConfusion h
      | some n =>
        rw [hp] at h
        cases h
        simp [pyTruthyDate]
        simpa using hs

theorem mkRow_ok {country_iso3 indicator : String} {item : WBEntry} {r : Obs}
    (h : mkRow country_iso3 indicator item = .ok r) :
    r.iso3 = upper country_iso3 ∧
    r.year.isSome = pyTruthyDate item.date ∧
    (item.indicator = none → r.indicator = some indicator) ∧
    r.value = item.value := by
  unfold mkRow at h
  cases hd : pyDate item.date with
  | error e => rw [hd] at h; exact Except.noConfusion h
  | ok y =>
    rw [hd] at h
    cases h
    refine ⟨rfl, pyDate_ok_isSome hd, ?_, rfl⟩
    intro hi
    simp [hi]

theorem buildRows_forall2 {country_iso3 indicator : String} :
    ∀ {items : List WBEntry} {rows : List Obs},
      buildRows country_iso3 indicator items = .ok rows →
      List.Forall₂ (fun e r => mkRow country_iso3 indicator e = .ok r) items rows := by
  intro items
  induction items with
  | nil =>
    intro rows h
    simp only [buildRows] at h
    cases h
    exact List.Forall₂.nil
  | cons item rest ih =>
    intro rows h
    simp only [buildRows] at h
    cases hm : mkRow country_iso3 indicator item with
    | error e => rw [hm] at h; exact Except.noConfusion h
    | ok r =>
      rw [hm] at h
      cases hb : buildRows country_iso3 indicator rest with
      | error e => rw [hb] at h; exact Except.noConfusion h
      | ok rs =>
        rw [hb] at h
        cases h
        exact List.Forall₂.cons hm (ih hb)

theorem forall2_mem_right {α β : Type _} {R : α → β → Prop} :
    ∀ {as : List α} {bs : List β}, List.Forall₂ R as bs →
      ∀ {b : β}, b ∈ bs → ∃ a ∈ as, R a b := by
  intro as bs h
  induction h with
  | nil => intro b hb; cases hb
  | cons hR hT ih =>
    intro b hb
    rcases List.mem_cons.mp hb with hb | hb
    · subst hb
      exact ⟨_, List.mem_cons_self _ _, hR⟩
    · obtain ⟨a, ha, hr⟩ := ih hb
      exact ⟨a, List.mem_cons_of_mem _ ha, hr⟩

theorem forall2_countP {α β : Type _} {R : α → β → Prop} {p : α → Bool} {q : β → Bool}
    (H : ∀ a b, R a b → p a = q b) :
    ∀ {as : List α} {bs : List β}, List.Forall₂ R as bs → as.countP p = bs.countP q := by
  intro as bs h
  induction h with
  | nil => rfl
  | cons hR hT ih =>
    rw [List.countP_cons, List.countP_cons, ih, H _ _ hR]

theorem mem_of_mem_normalizeTable {r : Obs} {l : List Obs} (h : r ∈ normalizeTable l) :
    r ∈ l ∧ r.year.isSome := by
  unfold normalizeTable at h
  rw [List.mem_insertionSort] at h
  have h2 := List.mem_filter.mp h
  exact ⟨h2.1, h2.2⟩

theorem length_normalizeTable (l : List Obs) :
    (normalizeTable l).length = l.countP (fun r => r.year.isSome) := by
  unfold normalizeTable
  rw [List.length_insertionSort, ← List.countP_eq_length_filter]

theorem pairwise_normalizeTable (l : List Obs) : List.Pairwise byYear (normalizeTable l) :=
  List.sorted_insertionSort byYear _

theorem fetch_ok_elim {country_iso3 indicator : String} {sy ey : Int} {resp : WBResponse}
    {t : List Obs} (h : fetch_world_bank country_iso3 indicator sy ey resp = .ok t) :
    t = [] ∨ ∃ items rows, resp = .entries items ∧
      buildRows country_iso3 indicator items = .ok rows ∧ t = normalizeTable rows := by
  cases resp with
  | httpFailure => exact Except.noConfusion h
  | nonJsonBody => exact Except.noConfusion h
  | jsonBadSecond => exact Except.noConfusion h
  | jsonNotTwoList => exact Or.inl (Except.ok.inj h).symm
  | jsonNullSecond => exact Or.inl (Except.ok.inj h).symm
  | entries items =>
    refine Or.inr ?_
    simp only [fetch_world_bank] at h
    cases hb : buildRows country_iso3 indicator items with
    | error e => rw [hb] at h; exact Except.noConfusion h
    | ok rows =>
      rw [hb] at h
      cases rows with
      | nil => exact Except.noConfusion h
      | cons r rs => exact ⟨items, r :: rs, rfl, hb, (Except.ok.inj h).symm⟩

theorem fetch_entries_ok {country_iso3 indicator : String} {sy ey : Int} {items : List WBEntry}
    {t : List Obs}
    (h : fetch_world_bank country_iso3 indicator sy ey (.entries items) = .ok t) :
    ∃ rows, buildRows country_iso3 indicator items = .ok rows ∧ t = normalizeTable rows := by
  simp only [fetch_world_bank] at h
  cases hb : buildRows country_iso3 indicator items with
  | error e => rw [hb] at h; exact Except.noConfusion h
  | ok rows =>
    rw [hb] at h
    cases rows with
    | nil => exact Except.noConfusion h
    | cons r rs => exact ⟨r :: rs, rfl, (Except.ok.inj h).symm⟩

theorem fetch_ok_row_facts {country_iso3 indicator : String} {sy ey : Int} {resp : WBResponse}
    {t : List Obs} (h : fetch_world_bank country_iso3 indicator sy ey resp = .ok t) :
    ∀ r ∈ t, r.iso3 = upper country_iso3 ∧ r.year.isSome := by
  intro r hr
  rcases fetch_ok_elim h with rfl | ⟨items, rows, _, hb, rfl⟩
  · cases hr
  · have hmem := mem_of_mem_normalizeTable hr
    obtain ⟨e, he, hmk⟩ := forall2_mem_right (buildRows_forall2 hb) hmem.1
    exact ⟨(mkRow_ok hmk).1, hmem.2⟩

theorem runApp_valid {countries_text indicator_code : String} {sy ey : Int}
    {resp : String → WBResponse}
    (h1 : ¬ (parseCountries countries_text).length = 0)
    (h2 : ¬ (parseCountries countries_text).length > 15) :
    (runApp countries_text indicator_code sy ey resp).errorMsg = none ∧
    (runApp countries_text indicator_code sy ey resp).attempted = parseCountries countries_text ∧
    (runApp countries_text indicator_code sy ey resp).warnings =
      loopWarnings (parseCountries countries_text) indicator_code sy ey resp ∧
    (runApp countries_text indicator_code sy ey resp).df =
      (frames (parseCountries countries_text) indicator_code sy ey resp).flatten ∧
    (runApp countries_text indicator_code sy ey resp).emptyWarning =
      ((frames (parseCountries countries_text) indicator_code sy ey resp).flatten).isEmpty ∧
    (runApp countries_text indicator_code sy ey resp).rendered =
      !((frames (parseCountries countries_text) indicator_code sy ey resp).flatten).isEmpty := by
  unfold runApp
  rw [if_neg h1, if_neg h2]
  by_cases hE : ((frames (parseCountries countries_text) indicator_code sy ey
      resp).flatten).isEmpty
  · rw [if_pos hE]
    exact ⟨rfl, rfl, rfl, rfl, hE.symm, by rw [hE]; rfl⟩
  · rw [if_neg hE]
    have hE2 : ((frames (parseCountries countries_text) indicator_code sy ey
        resp).flatten).isEmpty = false := by
      simpa using hE
    exact ⟨rfl, rfl, rfl, rfl, hE2.symm, by rw [hE2]; rfl⟩

theorem flatten_frames_eq {countries : List String} {ic : String} {sy ey : Int}
    {resp : String → WBResponse} :
    (frames countries ic sy ey resp).flatten =
      (countries.map
        (fun c => (fetch_world_bank c ic sy ey (resp c)).toOption.getD [])).flatten := by
  induction countries with
  | nil => rfl
  | cons c rest ih =>
    cases hf : (fetch_world_bank c ic sy ey (resp c)).toOption with
    | none =>
      simp only [frames, List.filterMap_cons, hf, List.map_cons, List.flatten_cons,
        Option.getD_none, List.nil_append]
      simp only [frames] at ih
      exact ih
    | some tbl =>
      simp only [frames, List.filterMap_cons, hf, List.map_cons, List.flatten_cons,
        Option.getD_some]
      simp only [frames] at ih
      rw [ih]

theorem warnMsg_mem_loopWarnings {countries : List String} {ic : String} {sy ey : Int}
    {resp : String → WBResponse} {c e : String} (hc : c ∈ countries)
    (hf : fetch_world_bank c ic sy ey (resp c) = .error e) :
    warnMsg c e ∈ loopWarnings countries ic sy ey resp := by
  unfold loopWarnings
  rw [List.mem_filterMap]
  exact ⟨c, hc, by rw [hf]⟩

theorem mem_flatten_frames {countries : List String} {ic : String} {sy ey : Int}
    {resp : String → WBResponse} {r : Obs}
    (hr : r ∈ (frames countries ic sy ey resp).flatten) :
    ∃ c ∈ countries, ∃ tbl, fetch_world_bank c ic sy ey (resp c) = .ok tbl ∧ r ∈ tbl := by
  rw [List.mem_flatten] at hr
  obtain ⟨tbl, htbl, hrt⟩ := hr
  unfold frames at htbl
  rw [List.mem_filterMap] at htbl
  obtain ⟨c, hc, hf⟩ := htbl
  refine ⟨c, hc, tbl, ?_, hrt⟩
  cases hfe : fetch_world_bank c ic sy ey (resp c) with
  | error e =>
    rw [hfe] at hf
    simp only [Except.toOption] at hf
    exact Option.noConfusion hf
  | ok t2 =>
    rw [hfe] at hf
    simp only [Except.toOption] at hf
    rw [Option.some.inj hf]

theorem parseCountries_upper {countries_text : String} {c : String}
    (hc : c ∈ parseCountries countries_text) : upper c = c := by
  unfold parseCountries at hc
  rw [List.mem_map] at hc
  obtain ⟨tok, _, htok⟩ := hc
  rw [← htok]
  exact upper_idem (pyStrip tok)

/-! ## Claims -/

/-- C1 (counterexample): the claim "a row appears in the returned table iff the
corresponding source payload entry contained a non-null `date`" fails: for a
payload whose single entry has the non-null date `""`, the fetch succeeds and
returns an empty table — `int(year) if year else None` at line 42 treats the
empty string as falsy, so the entry is dropped although its `date` is not
null. -/
theorem C1_counterexample :
    fetch_world_bank "DEU" "SP.POP.TOTL" 2000 2005
        (.entries [{ date := some "", country := none, indicator := none, value := some 1 }]) =
      .ok [] ∧
    ({ date := some "", country := none, indicator := none, value := some 1 } : WBEntry).date ≠
      none :=
  ⟨by decide, by decide⟩

/-- C1 (amended, proved): for every fetch whose payload holds a list of entries
and which returns a table, the table has exactly one row per payload entry
whose `date` is truthy, i.e. non-null and non-empty (a truthy but unparseable
`date` makes the whole fetch raise instead of returning a table, and is handled
upstream as a fetch failure); a row's `value` plays no role in whether the row
is present. -/
theorem C1_rows_iff_truthy_date (country_iso3 indicator : String) (sy ey : Int)
    (items : List WBEntry) (t : List Obs)
    (h : fetch_world_bank country_iso3 indicator sy ey (.entries items) = .ok t) :
    t.length = items.countP (fun e => pyTruthyDate e.date) := by
  obtain ⟨rows, hb, rfl⟩ := fetch_entries_ok h
  rw [length_normalizeTable]
  exact (@forall2_countP WBEntry Obs
    (fun e r => mkRow country_iso3 indicator e = .ok r)
    (fun e => pyTruthyDate e.date) (fun r => r.year.isSome)
    (fun e r hmk => ((mkRow_ok hmk).2.1).symm) _ _ (buildRows_forall2 hb)).symm

/-- C1 witness: a concrete fetch with one dated entry and one null-dated entry
returns exactly one row. -/
theorem C1_rows_iff_truthy_date_witness :
    ([{ iso3 := "DEU", country := some "DEU", indicator := some "NY.GDP.MKTP.CD",
        year := some 2001, value := some 7 }] : List Obs).length =
      ([{ date := some "2001", country := none, indicator := none, value := some 7 },
        { date := none, country := none, indicator := none, value := some 8 }] :
          List WBEntry).countP (fun e => pyTruthyDate e.date) :=
  C1_rows_iff_truthy_date "deu" "NY.GDP.MKTP.CD" 2000 2005
    [{ date := some "2001", country := none, indicator := none, value := some 7 },
     { date := none, country := none, indicator := none, value := some 8 }]
    [{ iso3 := "DEU", country := some "DEU", indicator := some "NY.GDP.MKTP.CD",
       year := some 2001, value := some 7 }] (by decide)

/-- C2 (counterexample): a malformed payload need not produce a warning: when
the body is valid JSON but not a two-element list (response `jsonNotTwoList`,
e.g. the JSON number `42` under a 200 status), line 32 silently returns an
empty frame, so a single-country run ends with no warning, no blocking error
and an empty combined table, while the claim demands a warning naming `DEU`. -/
theorem C2_counterexample :
    (runApp "DEU" "SP.POP.TOTL" 2000 2005 (fun _ => .jsonNotTwoList)).warnings = [] ∧
    (runApp "DEU" "SP.POP.TOTL" 2000 2005 (fun _ => .jsonNotTwoList)).df = [] ∧
    (runApp "DEU" "SP.POP.TOTL" 2000 2005 (fun _ => .jsonNotTwoList)).errorMsg = none :=
  ⟨by decide, by decide, by decide⟩

/-- C2 (amended, proved): every per-country fetch that raises — network error,
non-2xx status, non-JSON body, non-iterable `data[1]`, or an entry whose
truthy `date` fails `int(...)` — is caught per-country and surfaced as a
non-blocking warning naming that country and the error, and no row of the
combined table carries that country's code; a JSON body that is not a
two-element list, or whose second element is null, is instead treated silently
as an empty result with no warning. -/
theorem C2_raising_failures_warn (countries_text indicator_code : String) (sy ey : Int)
    (resp : String → WBResponse) (c e : String)
    (hc : c ∈ parseCountries countries_text)
    (hlen : (parseCountries countries_text).length ≤ 15)
    (hfail : fetch_world_bank c indicator_code sy ey (resp c) = .error e) :
    warnMsg c e ∈ (runApp countries_text indicator_code sy ey resp).warnings ∧
    ∀ r ∈ (runApp countries_text indicator_code sy ey resp).df, r.iso3 ≠ c := by
  have h1 : ¬ (parseCountries countries_text).length = 0 := by
    intro h0
    rw [List.length_eq_zero] at h0
    rw [h0] at hc
    cases hc
  have h2 : ¬ (parseCountries countries_text).length > 15 := by omega
  obtain ⟨_, _, hw, hdf, _, _⟩ :=
    @runApp_valid countries_text indicator_code sy ey resp h1 h2
  constructor
  · rw [hw]
    exact warnMsg_mem_loopWarnings hc hfail
  · intro r hr hrc
    rw [hdf] at hr
    obtain ⟨d, hd, tbl, hfd, hrt⟩ := mem_flatten_frames hr
    have hiso := (fetch_ok_row_facts hfd r hrt).1
    have hdc : d = c := (parseCountries_upper hd).symm.trans (hiso.symm.trans hrc)
    rw [hdc, hfail] at hfd
    exact Except.noConfusion hfd

/-- C2 witness: with two countries where the first's fetch raises an HTTP
error, the warning names the first country and every returned row carries the
second country's code. -/
theorem C2_raising_failures_warn_witness :
    warnMsg "DEU" "HTTPError" ∈
      (runApp "DEU,BRA" "SP.POP.TOTL" 2000 2005
        (fun c => if c = "DEU" then .httpFailure
          else .entries [{ date := some "2001", country := none, indicator := none,
                           value := some 7 }])).warnings ∧
    ∀ r ∈ (runApp "DEU,BRA" "SP.POP.TOTL" 2000 2005
        (fun c => if c = "DEU" then .httpFailure
          else .entries [{ date := some "2001", country := none, indicator := none,
                           value := some 7 }])).df, r.iso3 ≠ "DEU" :=
  C2_raising_failures_warn "DEU,BRA" "SP.POP.TOTL" 2000 2005
    (fun c => if c = "DEU" then .httpFailure
      else .entries [{ date := some "2001", country := none, indicator := none,
                       value := some 7 }])
    "DEU" "HTTPError" (by decide) (by decide) (by decide)

/-- C3 (counterexample): rows take the service-echoed `indicator.id`, with the
requested code only as a default: requesting `SP.POP.TOTL` against a payload
entry echoing the id `OTHER` yields a row whose `indicator` is `OTHER`, not
the requested code. -/
theorem C3_counterexample :
    fetch_world_bank "DEU" "SP.POP.TOTL" 2000 2005
        (.entries [{ date := some "2001", country := none,
                     indicator := some (some "OTHER"), value := some 3 }]) =
      .ok [{ iso3 := "DEU", country := some "DEU", indicator := some "OTHER",
             year := some 2001, value := some 3 }] ∧
    (some "OTHER" : Option String) ≠ some "SP.POP.TOTL" :=
  ⟨by decide, by decide⟩

/-- C3 (amended, proved): within a single fetch every row carries the requested
country code, uppercased, as `iso3`; a row's `indicator` is the service-echoed
`indicator.id` defaulting to the requested code, so all rows carry the
requested indicator whenever no entry echoes an id of its own. -/
theorem C3_same_iso3_echoed_indicator (country_iso3 indicator : String) (sy ey : Int)
    (items : List WBEntry) (t : List Obs)
    (h : fetch_world_bank country_iso3 indicator sy ey (.entries items) = .ok t) :
    (∀ r ∈ t, r.iso3 = upper country_iso3) ∧
    ((∀ e ∈ items, e.indicator = none) → ∀ r ∈ t, r.indicator = some indicator) := by
  obtain ⟨rows, hb, rfl⟩ := fetch_entries_ok h
  refine ⟨?_, ?_⟩
  · intro r hr
    obtain ⟨e, he, hmk⟩ :=
      forall2_mem_right (buildRows_forall2 hb) (mem_of_mem_normalizeTable hr).1
    exact (mkRow_ok hmk).1
  · intro hnone r hr
    obtain ⟨e, he, hmk⟩ :=
      forall2_mem_right (buildRows_forall2 hb) (mem_of_mem_normalizeTable hr).1
    exact (mkRow_ok hmk).2.2.1 (hnone e he)

/-- C3 witness: a concrete two-entry fetch in which no entry echoes an
indicator id: both rows carry `DEU` and the requested code. -/
theorem C3_same_iso3_echoed_indicator_witness :
    (∀ r ∈ ([{ iso3 := "DEU", country := some "DEU", indicator := some "SP.POP.TOTL",
               year := some 2001, value := some 3 },
             { iso3 := "DEU", country := some "DEU", indicator := some "SP.POP.TOTL",
               year := some 2002, value := none }] : List Obs),
        r.iso3 = upper "deu") ∧
    ((∀ e ∈ ([{ date := some "2001", country := none, indicator := none, value := some 3 },
              { date := some "2002", country := none, indicator := none, value := none }] :
          List WBEntry), e.indicator = none) →
      ∀ r ∈ ([{ iso3 := "DEU", country := some "DEU", indicator := some "SP.POP.TOTL",
                year := some 2001, value := some 3 },
              { iso3 := "DEU", country := some "DEU", indicator := some "SP.POP.TOTL",
                year := some 2002, value := none }] : List Obs),
        r.indicator = some "SP.POP.TOTL") :=
  C3_same_iso3_echoed_indicator "deu" "SP.POP.TOTL" 2000 2005
    [{ date := some "2001", country := none, indicator := none, value := some 3 },
     { date := some "2002", country := none, indicator := none, value := none }]
    [{ iso3 := "DEU", country := some "DEU", indicator := some "SP.POP.TOTL",
       year := some 2001, value := some 3 },
     { iso3 := "DEU", country := some "DEU", indicator := some "SP.POP.TOTL",
       year := some 2002, value := none }] (by decide)

/-- C4 (proved): one country's failure never aborts the others: whenever some
country's fetch raises while the run proceeds past validation, the run produces
no blocking error, a warning naming the failed country appears, and the
combined table is exactly the concatenation, in country order, of the tables
of the fetches that succeeded (failed countries contributing nothing). -/
theorem C4_partial_failure_fold (countries_text indicator_code : String) (sy ey : Int)
    (resp : String → WBResponse) (c e : String)
    (hc : c ∈ parseCountries countries_text)
    (hlen : (parseCountries countries_text).length ≤ 15)
    (hfail : fetch_world_bank c indicator_code sy ey (resp c) = .error e) :
    (runApp countries_text indicator_code sy ey resp).errorMsg = none ∧
    warnMsg c e ∈ (runApp countries_text indicator_code sy ey resp).warnings ∧
    (runApp countries_text indicator_code sy ey resp).df =
      ((parseCountries countries_text).map
        (fun d => (fetch_world_bank d indicator_code sy ey (resp d)).toOption.getD [])).flatten := by
  have h1 : ¬ (parseCountries countries_text).length = 0 := by
    intro h0
    rw [List.length_eq_zero] at h0
    rw [h0] at hc
    cases hc
  have h2 : ¬ (parseCountries countries_text).length > 15 := by omega
  obtain ⟨hE, _, hw, hdf, _, _⟩ :=
    @runApp_valid countries_text indicator_code sy ey resp h1 h2
  exact ⟨hE, by rw [hw]; exact warnMsg_mem_loopWarnings hc hfail,
    hdf.trans flatten_frames_eq⟩

/-- C4 witness: three countries, the middle one failing: the run carries the
warning for the failed country and the combined table concatenates the two
successful tables. -/
theorem C4_partial_failure_fold_witness :
    (runApp "DEU,FRA,BRA" "SP.POP.TOTL" 2000 2005
      (fun c => if c = "FRA" then .httpFailure
        else .entries [{ date := some "2001", country := none, indicator := none,
                         value := some 7 }])).errorMsg = none ∧
    warnMsg "FRA" "HTTPError" ∈
      (runApp "DEU,FRA,BRA" "SP.POP.TOTL" 2000 2005
        (fun c => if c = "FRA" then .httpFailure
          else .entries [{ date := some "2001", country := none, indicator := none,
                           value := some 7 }])).warnings ∧
    (runApp "DEU,FRA,BRA" "SP.POP.TOTL" 2000 2005
      (fun c => if c = "FRA" then .httpFailure
        else .entries [{ date := some "2001", country := none, indicator := none,
                         value := some 7 }])).df =
      ((parseCountries "DEU,FRA,BRA").map
        (fun d => (fetch_world_bank d "SP.POP.TOTL" 2000 2005
          ((fun c => if c = "FRA" then .httpFailure
            else .entries [{ date := some "2001", country := none, indicator := none,
                             value := some 7 }]) d)).toOption.getD [])).flatten :=
  C4_partial_failure_fold "DEU,FRA,BRA" "SP.POP.TOTL" 2000 2005
    (fun c => if c = "FRA" then .httpFailure
      else .entries [{ date := some "2001", country := none, indicator := none,
                       value := some 7 }])
    "FRA" "HTTPError" (by decide) (by decide) (by decide)

/-- C5 (proved): an empty parsed country list, or more than 15 codes, produces
a blocking error message and halts before the fetch loop: no fetch is
attempted, no warning and no row is produced, and nothing is rendered. -/
theorem C5_invalid_input_halts (countries_text indicator_code : String) (sy ey : Int)
    (resp : String → WBResponse)
    (h : (parseCountries countries_text).length = 0 ∨
      (parseCountries countries_text).length > 15) :
    (runApp countries_text indicator_code sy ey resp).errorMsg.isSome ∧
    (runApp countries_text indicator_code sy ey resp).attempted = [] ∧
    (runApp countries_text indicator_code sy ey resp).warnings = [] ∧
    (runApp countries_text indicator_code sy ey resp).df = [] ∧
    (runApp countries_text indicator_code sy ey resp).rendered = false := by
  rcases h with h | h
  · unfold runApp
    rw [if_pos h]
    exact ⟨rfl, rfl, rfl, rfl, rfl⟩
  · unfold runApp
    rw [if_neg (by omega), if_pos h]
    exact ⟨rfl, rfl, rfl, rfl, rfl⟩

/-- C5 witness: the empty input parses to zero countries and the run halts with
a blocking error and no fetch. -/
theorem C5_invalid_input_halts_witness :
    (runApp "" "SP.POP.TOTL" 2000 2005 (fun _ => .jsonNullSecond)).errorMsg.isSome ∧
    (runApp "" "SP.POP.TOTL" 2000 2005 (fun _ => .jsonNullSecond)).attempted = [] ∧
    (runApp "" "SP.POP.TOTL" 2000 2005 (fun _ => .jsonNullSecond)).warnings = [] ∧
    (runApp "" "SP.POP.TOTL" 2000 2005 (fun _ => .jsonNullSecond)).df = [] ∧
    (runApp "" "SP.POP.TOTL" 2000 2005 (fun _ => .jsonNullSecond)).rendered = false :=
  C5_invalid_input_halts "" "SP.POP.TOTL" 2000 2005 (fun _ => .jsonNullSecond)
    (Or.inl (by decide))

/-- C6 (proved): when every fetch either raises or returns an empty table, the
combined table is empty, the run halts showing the empty-result warning, and
no chart, table view or CSV export is produced. -/
theorem C6_all_empty_halts (countries_text indicator_code : String) (sy ey : Int)
    (resp : String → WBResponse)
    (h1 : ¬ (parseCountries countries_text).length = 0)
    (h2 : (parseCountries countries_text).length ≤ 15)
    (hall : ∀ c ∈ parseCountries countries_text, ∀ tbl,
      fetch_world_bank c indicator_code sy ey (resp c) = .ok tbl → tbl = []) :
    (runApp countries_text indicator_code sy ey resp).df = [] ∧
    (runApp countries_text indicator_code sy ey resp).emptyWarning = true ∧
    (runApp countries_text indicator_code sy ey resp).rendered = false := by
  have h2b : ¬ (parseCountries countries_text).length > 15 := by omega
  obtain ⟨_, _, _, hdf, hEW, hR⟩ :=
    @runApp_valid countries_text indicator_code sy ey resp h1 h2b
  have hflat : (frames (parseCountries countries_text) indicator_code sy ey resp).flatten = [] := by
    rw [List.flatten_eq_nil_iff]
    intro tbl htbl
    unfold frames at htbl
    rw [List.mem_filterMap] at htbl
    obtain ⟨c, hc, hf⟩ := htbl
    cases hfe : fetch_world_bank c indicator_code sy ey (resp c) with
    | error e =>
      rw [hfe] at hf
      simp only [Except.toOption] at hf
      exact Option.noConfusion hf
    | ok t2 =>
      rw [hfe] at hf
      simp only [Except.toOption] at hf
      rw [← Option.some.inj hf]
      exact hall c hc t2 hfe
  exact ⟨hdf.trans hflat, by rw [hEW, hflat]; rfl, by rw [hR, hflat]; rfl⟩

/-- C6 witness: one country whose response is the World Bank "no data" shape:
the combined table is empty, the empty-result warning shows, nothing renders. -/
theorem C6_all_empty_halts_witness :
    (runApp "DEU" "SP.POP.TOTL" 2000 2005 (fun _ => .jsonNullSecond)).df = [] ∧
    (runApp "DEU" "SP.POP.TOTL" 2000 2005 (fun _ => .jsonNullSecond)).emptyWarning = true ∧
    (runApp "DEU" "SP.POP.TOTL" 2000 2005 (fun _ => .jsonNullSecond)).rendered = false :=
  C6_all_empty_halts "DEU" "SP.POP.TOTL" 2000 2005 (fun _ => .jsonNullSecond)
    (by decide) (by decide)
    (by intro c hc tbl hf; exact (Except.ok.inj hf).symm)

/-- C7 (proved): every table a fetch returns is sorted ascending by `year`
(every row's year is present and consecutive rows are non-decreasing on it),
and the result is deterministic: any two fetches of the same input tuple seeing
the same response payload return the same table. -/
theorem C7_sorted_and_deterministic (country_iso3 indicator : String) (sy ey : Int)
    (resp : WBResponse) (t : List Obs)
    (h : fetch_world_bank country_iso3 indicator sy ey resp = .ok t) :
    List.Pairwise byYear t ∧ (∀ r ∈ t, r.year.isSome) ∧
    (∀ t2, fetch_world_bank country_iso3 indicator sy ey resp = .ok t2 → t2 = t) := by
  refine ⟨?_, fun r hr => (fetch_ok_row_facts h r hr).2,
    fun t2 h2 => Except.ok.inj (h2.symm.trans h)⟩
  rcases fetch_ok_elim h with rfl | ⟨items, rows, _, hb, rfl⟩
  · exact List.Pairwise.nil
  · exact pairwise_normalizeTable rows

/-- C7 witness: a fetch whose payload lists the years out of order returns the
rows sorted ascending by year. -/
theorem C7_sorted_and_deterministic_witness :
    List.Pairwise byYear
      ([{ iso3 := "DEU", country := some "DEU", indicator := some "SP.POP.TOTL",
          year := some 2001, value := some 9 },
        { iso3 := "DEU", country := some "DEU", indicator := some "SP.POP.TOTL",
          year := some 2005, value := some 8 }] : List Obs) ∧
    (∀ r ∈ ([{ iso3 := "DEU", country := some "DEU", indicator := some "SP.POP.TOTL",
               year := some 2001, value := some 9 },
             { iso3 := "DEU", country := some "DEU", indicator := some "SP.POP.TOTL",
               year := some 2005, value := some 8 }] : List Obs), r.year.isSome) ∧
    (∀ t2, fetch_world_bank "DEU" "SP.POP.TOTL" 2000 2005
        (.entries [{ date := some "2005", country := none, indicator := none, value := some 8 },
                   { date := some "2001", country := none, indicator := none, value := some 9 }]) =
        .ok t2 →
      t2 = [{ iso3 := "DEU", country := some "DEU", indicator := some "SP.POP.TOTL",
              year := some 2001, value := some 9 },
            { iso3 := "DEU", country := some "DEU", indicator := some "SP.POP.TOTL",
              year := some 2005, value := some 8 }]) :=
  C7_sorted_and_deterministic "DEU" "SP.POP.TOTL" 2000 2005
    (.entries [{ date := some "2005", country := none, indicator := none, value := some 8 },
               { date := some "2001", country := none, indicator := none, value := some 9 }])
    [{ iso3 := "DEU", country := some "DEU", indicator := some "SP.POP.TOTL",
       year := some 2001, value := some 9 },
     { iso3 := "DEU", country := some "DEU", indicator := some "SP.POP.TOTL",
       year := some 2005, value := some 8 }] (by decide)

/-- C9 (proved): for every valid run (between 1 and 15 parsed codes), each row
of the combined table carries an `iso3` belonging to the requested list of
trimmed, uppercased country codes. -/
theorem C9_iso3_subset (countries_text indicator_code : String) (sy ey : Int)
    (resp : String → WBResponse)
    (h1 : 1 ≤ (parseCountries countries_text).length)
    (h2 : (parseCountries countries_text).length ≤ 15) :
    ∀ r ∈ (runApp countries_text indicator_code sy ey resp).df,
      r.iso3 ∈ parseCountries countries_text := by
  have h1b : ¬ (parseCountries countries_text).length = 0 := by omega
  have h2b : ¬ (parseCountries countries_text).length > 15 := by omega
  obtain ⟨_, _, _, hdf, _, _⟩ :=
    @runApp_valid countries_text indicator_code sy ey resp h1b h2b
  intro r hr
  rw [hdf] at hr
  obtain ⟨d, hd, tbl, hfd, hrt⟩ := mem_flatten_frames hr
  have hiso := (fetch_ok_row_facts hfd r hrt).1
  rw [hiso, parseCountries_upper hd]
  exact hd

/-- C9 witness: in the run over `" deu , BRA"` the concrete `DEU` row of the
combined table carries an `iso3` from the parsed code list. -/
theorem C9_iso3_subset_witness :
    ({ iso3 := "DEU", country := some "DEU", indicator := some "SP.POP.TOTL",
       year := some 2001, value := some 7 } : Obs).iso3 ∈ parseCountries " deu , BRA" :=
  C9_iso3_subset " deu , BRA" "SP.POP.TOTL" 2000 2005
    (fun _ => .entries [{ date := some "2001", country := none, indicator := none,
                          value := some 7 }])
    (by decide) (by decide)
    { iso3 := "DEU", country := some "DEU", indicator := some "SP.POP.TOTL",
      year := some 2001, value := some 7 }
    (by decide)

/-- C10 (proved): the parsed country list is not deduplicated and the fetch
loop runs once per occurrence: for every run that passes validation, the list
of attempted fetches is exactly the parsed list (duplicates included, in input
order) and the combined table is the concatenation, occurrence by occurrence,
of each occurrence's table — so a code listed twice is fetched twice and its
rows appear twice, in list order. -/
theorem C10_duplicates_kept (countries_text indicator_code : String) (sy ey : Int)
    (resp : String → WBResponse)
    (h1 : ¬ (parseCountries countries_text).length = 0)
    (h2 : (parseCountries countries_text).length ≤ 15) :
    (runApp countries_text indicator_code sy ey resp).attempted =
      parseCountries countries_text ∧
    (runApp countries_text indicator_code sy ey resp).df =
      ((parseCountries countries_text).map
        (fun d => (fetch_world_bank d indicator_code sy ey (resp d)).toOption.getD [])).flatten := by
  have h2b : ¬ (parseCountries countries_text).length > 15 := by omega
  obtain ⟨_, hA, _, hdf, _, _⟩ :=
    @runApp_valid countries_text indicator_code sy ey resp h1 h2b
  exact ⟨hA, hdf.trans flatten_frames_eq⟩

/-- C10 witness: the input `"DEU,DEU"` is fetched twice and its single row
appears twice in the combined table. -/
theorem C10_duplicates_kept_witness :
    (runApp "DEU,DEU" "SP.POP.TOTL" 2000 2005
      (fun _ => .entries [{ date := some "2001", country := none, indicator := none,
                            value := some 7 }])).attempted = ["DEU", "DEU"] ∧
    (runApp "DEU,DEU" "SP.POP.TOTL" 2000 2005
      (fun _ => .entries [{ date := some "2001", country := none, indicator := none,
                            value := some 7 }])).df =
      [{ iso3 := "DEU", country := some "DEU", indicator := some "SP.POP.TOTL",
         year := some 2001, value := some 7 },
       { iso3 := "DEU", country := some "DEU", indicator := some "SP.POP.TOTL",
         year := some 2001, value := some 7 }] := by
  have h := C10_duplicates_kept "DEU,DEU" "SP.POP.TOTL" 2000 2005
    (fun _ => .entries [{ date := some "2001", country := none, indicator := none,
                          value := some 7 }])
    (by decide) (by decide)
  exact ⟨h.1.trans (by decide), h.2.trans (by decide)⟩

end MacroViz
